import Mathlib

/-
  Verification of the signal-dispatch and instrument-lifecycle core of the
  workload-automation framework, as a shallow embedding of
  `wa/framework/instrument.py` and `wa/framework/target/manager.py`.

  Python dynamic state is made explicit: the module-level globals of
  `instrument.py` (`installed`, `_callbacks`, the signal registry entries
  created by `install`, and `failures_detected`) become a `ModuleState`
  record; exceptions become values of the `PyErr` type; functions that can
  raise return a pair of the resulting state and an optional raised error
  (mutations performed before the raise persist, as in Python).
-/

namespace WA

/-- Python exception values that flow through this core.  The exception
classes live in `wa/framework/exception.py` / devlib (not part of the
sources here); a flat sum of the leaf classes used by the code suffices,
because the only hierarchy fact the code relies on is which classes the
`except` clauses and `isinstance` tests match, captured below in
`isReraised`, `isWorkloadError`, `isTargetError` and `isTimeoutError`
(with `TargetNotRespondingError` a subclass of `TargetError`, per devlib;
that case is unreachable in the `isinstance` chain since it is re-raised
earlier). -/
inductive PyErr where
  | keyboardInterrupt : PyErr
  | targetNotResponding (msg : String) : PyErr
  | timeout (msg : String) : PyErr
  | workload (msg : String) : PyErr
  | targetErr (msg : String) : PyErr
  | execution (msg : String) : PyErr
  | attributeError (msg : String) : PyErr
  | valueError (msg : String) : PyErr
  | other (msg : String) : PyErr
deriving Repr, DecidableEq

/-- `e.message` (Python 2 `BaseException.message`). -/
def PyErr.message : PyErr → String
  | .keyboardInterrupt => ""
  | .targetNotResponding m => m
  | .timeout m => m
  | .workload m => m
  | .targetErr m => m
  | .execution m => m
  | .attributeError m => m
  | .valueError m => m
  | .other m => m

/-- The first `except` clause of `ManagedCallback.__call__`:
`except (KeyboardInterrupt, TargetNotRespondingError, TimeoutError): raise`. -/
def isReraised : PyErr → Bool
  | .keyboardInterrupt => true
  | .targetNotResponding _ => true
  | .timeout _ => true
  | _ => false

/-- `isinstance(e, WorkloadError)`. -/
def isWorkloadError : PyErr → Bool
  | .workload _ => true
  | _ => false

/-- `isinstance(e, TargetError)`; `TargetNotRespondingError` is a subclass. -/
def isTargetError : PyErr → Bool
  | .targetErr _ => true
  | .targetNotResponding _ => true
  | _ => false

/-- `isinstance(e, TimeoutError)`. -/
def isTimeoutError : PyErr → Bool
  | .timeout _ => true
  | _ => false

/-! ## Target manager (`wa/framework/target/manager.py`) -/

/-- The opaque device collaborator, reduced to the capabilities
`verify_target_responsive` consults: the outcome of the non-throwing
liveness probe `check_responsive(explode=False)` at this call, the
`has('hard_reset')` capability query, and a counter recording how many
times `reboot` has been invoked on it. -/
structure DevTarget where
  check_responsive : Bool
  has_hard_reset : Bool
  reboot_count : Nat
deriving Repr, DecidableEq

/-- The target session.  `is_responsive` is `None` right after `__init__`
and `True` after `_init_target`; `none`/`some false` are both falsy where
the managed callback tests it. -/
structure TargetManager where
  target : DevTarget
  is_responsive : Option Bool
deriving Repr, DecidableEq

/-- `self.reboot(context, hard=True)`: brackets signals (not modelled) and
calls `self.target.reboot(hard)`, recorded as a reboot-count increment. -/
def TargetManager.rebootHard (tm : TargetManager) : TargetManager :=
  { tm with target := { tm.target with reboot_count := tm.target.reboot_count + 1 } }

/-- Python truthiness of `self.is_responsive : Option Bool`. -/
def truthy : Option Bool → Bool
  | none => false
  | some b => b

structure RebootPolicy where
  can_reboot : Bool
deriving Repr, DecidableEq

/-- The execution context consumed by managed callbacks: the target-manager
back-reference `tm`, `reboot_policy`, the nullable `current_job`, the event
log written by `add_event`, and the status written by `set_status`. -/
structure Context where
  tm : TargetManager
  reboot_policy : RebootPolicy
  current_job : Option String
  events : List String
  status : Option String
deriving Repr, DecidableEq

/-- The dynamically-typed argument of `verify_target_responsive(self, context)`.
The method's signature expects a context, but its caller in
`instrument.py` passes `context.reboot_policy.can_reboot`, a bool, so the
argument domain is the sum of the two. -/
inductive VerifyArg where
  | ctx (c : Context) : VerifyArg
  | boolVal (b : Bool) : VerifyArg
deriving Repr, DecidableEq

/-- The attribute access `context.reboot_policy.can_reboot` performed first
by `verify_target_responsive` on its dynamic argument: a `Context` has the
attribute; a bool does not, so the access raises `AttributeError`. -/
def getCanReboot : VerifyArg → Except PyErr Bool
  | .ctx c => .ok c.reboot_policy.can_reboot
  | .boolVal _ => .error (.attributeError "bool object has no attribute reboot_policy")

/-- `TargetManager.verify_target_responsive` (manager.py lines 90-102),
returning the updated session together with the raised error, if any. -/
def verify_target_responsive (tm : TargetManager) (arg : VerifyArg) :
    TargetManager × Option PyErr :=
  match getCanReboot arg with
  | .error e => (tm, some e)
  | .ok can_reboot =>
    if !tm.target.check_responsive then
      let tm1 : TargetManager := { tm with is_responsive := some false }
      if !can_reboot then
        (tm1, some (.targetNotResponding "Target unresponsive and is not allowed to reboot."))
      else if tm.target.has_hard_reset then
        ({ tm1.rebootHard with is_responsive := some true },
         some (.execution "Target became unresponsive but was recovered."))
      else
        (tm1, some (.targetNotResponding "Target unresponsive and hard reset not supported; bailing."))
    else (tm, none)

/-! ## Failure flag (`instrument.py` lines 220-231) -/

/-- `reset_failures()`: sets the module-level `failures_detected` to `False`. -/
def reset_failures (_s : Bool) : Bool := false

/-- `check_failures()`: returns the current `failures_detected` and resets
it; the pair is (returned value, flag afterwards). -/
def check_failures (s : Bool) : Bool × Bool := (s, reset_failures s)

/-! ## Managed callback (`instrument.py` lines 234-268) -/

/-- The behaviour of one underlying instrument callback at one invocation:
given the context it returns the context it leaves behind (mutations it
performed persist even when it raises) and the error it raised, if any. -/
def CallbackRun : Type := Context → Context × Option PyErr

/-- `ManagedCallback.__call__(context)`.  Inputs: the owning instrument's
`is_enabled` flag, the underlying callback, the context, and the current
`failures_detected` flag.  Output: the resulting context, the resulting
flag, and the error propagating out of the call, if any.  Logging calls
(`logger.debug`, `logger.error`, `log_error`) have no modelled effect. -/
def managedCall (is_enabled : Bool) (cb : CallbackRun)
    (ctx : Context) (failures : Bool) : Context × Bool × Option PyErr :=
  if is_enabled then
    if !truthy ctx.tm.is_responsive then
      (ctx, failures, none)
    else
      match cb ctx with
      | (ctx1, none) => (ctx1, failures, none)
      | (ctx1, some e) =>
        if isReraised e then (ctx1, failures, some e)
        else
          let ctx2 : Context := { ctx1 with events := ctx1.events ++ [e.message] }
          if isWorkloadError e then
            ({ ctx2 with status := some "FAILED" }, true, none)
          else if isTargetError e || isTimeoutError e then
            let vr := verify_target_responsive ctx2.tm
              (.boolVal ctx2.reboot_policy.can_reboot)
            ({ ctx2 with tm := vr.1 }, true, vr.2)
          else
            match ctx2.current_job with
            | some _ => ({ ctx2 with status := some "PARTIAL" }, true, none)
            | none => (ctx2, true, some e)
  else (ctx, failures, none)

/-! ## Instrument registry (`instrument.py` lines 190-344) -/

/-- Modelled from the spec: `identifier` lives in `wa/utils/types.py`, which
is not among the sources; it normalizes text to a valid identifier by
replacing every non-alphanumeric character (whitespace, punctuation such as
a dash) with an underscore. -/
def identifier (s : String) : String :=
  ⟨s.data.map (fun c => if c.isAlphanum then c else '_')⟩

/-- One attribute of an instrument as seen by `install`'s scan: its name,
whether it is callable, `len(inspect.getargspec(attr).args)` (for a bound
method this counts `self`), whether `argspec.varargs` is present, and the
numeric priority `get_priority` reads off it (default `Priority.normal`). -/
structure AttrSpec where
  attrName : String
  isCallable : Bool
  nargs : Nat
  varargs : Bool
  priorityVal : Int
deriving Repr, DecidableEq

/-- An instrument instance.  `instId` is Python object identity (the default
`==` used by `in`/`list.remove`); `clsId` identifies its class; `name` is
the `name` attribute (declared on the class, so instances of one class share
it); `dirAttrs` lists its attributes in `dir()` order. -/
structure Instrument where
  instId : Nat
  clsId : Nat
  name : String
  is_enabled : Bool
  is_broken : Bool
  dirAttrs : List AttrSpec
deriving Repr, DecidableEq

/-- The keys of `SIGNAL_MAP` (instrument.py lines 122-156). -/
def SIGNAL_MAP_keys : List String :=
  ["initialize", "setup", "start", "stop", "process_workload_output",
   "update_output", "teardown", "finalize", "on_run_start", "on_run_end",
   "on_job_start", "on_job_restart", "on_job_end", "on_job_falure",
   "on_job_abort", "before_job", "on_successful_job", "after_job",
   "before_processing_job_output", "on_successfully_processing_job",
   "after_processing_job_output", "before_reboot", "on_successful_reboot",
   "after_reboot", "on_error", "on_warning"]

/-- The attributes of `instrument` that `install` scans: those of `dir()`
whose name is a key of `SIGNAL_MAP`. -/
def mappedAttrs (inst : Instrument) : List AttrSpec :=
  inst.dirAttrs.filter (fun a => SIGNAL_MAP_keys.contains a.attrName)

/-- The module-level mutable state of `instrument.py`: `installed`,
`_callbacks` (strong references to the `ManagedCallback`s, as
(instrument identity, attribute name) pairs), the connections `install`
makes in the signal registry (signal key, instrument identity, priority),
and `failures_detected`. -/
structure ModuleState where
  installed : List Instrument
  callbacks : List (Nat × String)
  registry : List (String × Nat × Int)
  failures_detected : Bool
deriving Repr, DecidableEq

/-- `is_installed` on an `Instrument` instance: `instrument in installed`
(object identity) or `instrument.name in [i.name for i in installed]`
(raw name equality, no normalization). -/
def is_installed_inst (inst : Instrument) (installed : List Instrument) : Bool :=
  installed.any (fun i => i.instId == inst.instId) ||
  (installed.map (fun i => i.name)).contains inst.name

/-- `is_installed` on a string: identifier-normalized name membership. -/
def is_installed_name (nm : String) (installed : List Instrument) : Bool :=
  (installed.map (fun i => identifier i.name)).contains (identifier nm)

/-- The per-attribute checks of `install` (instrument.py lines 303-314):
not callable, or more than 2 positional arguments, or fewer than 2 with no
varargs, each raises a `ValueError` whose message is built as in the code. -/
def checkAttr (a : AttrSpec) : Option PyErr :=
  if !a.isCallable then
    some (.valueError ("Attribute " ++ a.attrName ++ " not callable in <instrument>."))
  else if a.nargs > 2 || (a.nargs < 2 && !a.varargs) then
    some (.valueError (a.attrName ++ " must take exactly 2 positional arguments; "
      ++ toString a.nargs ++ " given."))
  else none

/-- `attrOk a` iff `checkAttr` accepts `a`. -/
def attrOk (a : AttrSpec) : Bool :=
  a.isCallable && !(a.nargs > 2 || (a.nargs < 2 && !a.varargs))

/-- The body of `install`'s `for attr_name in dir(instrument)` loop over the
mapped attributes: each one is checked and, when accepted, a
`ManagedCallback` is appended to `_callbacks` and connected in the signal
registry; a failed check raises at once, keeping the connections already
made. -/
def installLoop (inst : Instrument) :
    List AttrSpec → ModuleState → ModuleState × Option PyErr
  | [], s => (s, none)
  | a :: rest, s =>
    match checkAttr a with
    | some e => (s, some e)
    | none =>
      installLoop inst rest
        { s with callbacks := s.callbacks ++ [(inst.instId, a.attrName)],
                 registry := s.registry ++ [(a.attrName, inst.instId, a.priorityVal)] }

/-- `install(instrument, context)` (instrument.py lines 283-325): duplicate
check, attribute scan with connection, then append to `installed`. -/
def install (inst : Instrument) (s : ModuleState) : ModuleState × Option PyErr :=
  if is_installed_inst inst s.installed then
    (s, some (.valueError ("Instrument " ++ inst.name ++ " is already installed.")))
  else
    match installLoop inst (mappedAttrs inst) s with
    | (s1, some e) => (s1, some e)
    | (s1, none) => ({ s1 with installed := s1.installed ++ [inst] }, none)

/-- The argument of `get_instrument`/`uninstall`: an `Instrument` instance
or a name string. -/
inductive InstRef where
  | inst (i : Instrument) : InstRef
  | name (s : String) : InstRef
deriving Repr, DecidableEq

/-- `get_instrument` (instrument.py lines 338-344): an instance is returned
as-is; a string is looked up by identifier-normalized name among the
installed instruments, raising `ValueError` when absent. -/
def get_instrument (r : InstRef) (installed : List Instrument) :
    Except PyErr Instrument :=
  match r with
  | .inst i => .ok i
  | .name n =>
    match installed.find? (fun i => identifier i.name == identifier n) with
    | some i => .ok i
    | none => .error (.valueError ("Instrument " ++ n ++ " is not installed"))

/-- Python `list.remove(x)`: removes the first element `== x` (object
identity here), raising `ValueError` when none matches. -/
def listRemove : List Instrument → Instrument → Except PyErr (List Instrument)
  | [], _ => .error (.valueError "list.remove(x): x not in list")
  | x :: xs, i =>
    if x.instId == i.instId then .ok xs
    else
      match listRemove xs i with
      | .ok ys => .ok (x :: ys)
      | .error e => .error e

/-- The `installed.remove(instrument)` statement of `uninstall`, on the
module state. -/
def removeInstalled (i : Instrument) (s : ModuleState) : ModuleState × Option PyErr :=
  match listRemove s.installed i with
  | .error e => (s, some e)
  | .ok l => ({ s with installed := l }, none)

/-- `uninstall(instrument)` (instrument.py lines 328-330): resolve through
`get_instrument`, then `installed.remove(instrument)`.  Only `installed` is
touched; `_callbacks` and the signal registry are not. -/
def uninstall (r : InstRef) (s : ModuleState) : ModuleState × Option PyErr :=
  match get_instrument r s.installed with
  | .error e => (s, some e)
  | .ok i => removeInstalled i s

/-- `is_enabled` (instrument.py lines 208-217) applied to a name string:
`get_instrument(name)` inside a `try`, returning the found instrument's
`is_enabled`, and `False` when the lookup raises `ValueError`. -/
def is_enabled_lookup (nm : String) (installed : List Instrument) : Bool :=
  match get_instrument (.name nm) installed with
  | .ok i => i.is_enabled
  | .error _ => false

/-! ## Signal dispatch order

Modelled from the spec: `wa/framework/signal.py` is not among the sources;
the spec's contract is that `send(signal, context)` invokes every callback
connected to the signal in descending priority order, ties broken by
registration order.  A registration carries the callback, its numeric
priority, and its registration sequence number; `connectReg` keeps the
receiver list ordered by inserting each new registration after every
registration of priority greater than or equal to its own. -/

structure Registration where
  cb : Nat
  pri : Int
  seq : Nat
deriving Repr, DecidableEq

/-- `a` is dispatched strictly before `b`: strictly higher priority, or
equal priority and earlier registration. -/
def dispatchBefore (a b : Registration) : Prop :=
  a.pri > b.pri ∨ (a.pri = b.pri ∧ a.seq < b.seq)

instance : DecidableRel dispatchBefore := by
  intro a b
  unfold dispatchBefore
  infer_instance

/-- Insert a new registration after all registrations of priority ≥ its own. -/
def connectReg (r : Registration) : List Registration → List Registration
  | [] => [r]
  | x :: xs => if x.pri < r.pri then r :: x :: xs else x :: connectReg r xs

/-- The invocation order of `send` after the given registrations were made
in list order: each registration is connected in turn into the ordered
receiver list, which `send` then visits front to back. -/
def sendOrder (regs : List Registration) : List Registration :=
  regs.foldl (fun acc r => connectReg r acc) []

/-! ## Concrete fixtures used by witnesses and counterexamples -/

/-- A live target: probe succeeds, hard reset available, never rebooted. -/
def tmLive : TargetManager :=
  { target := { check_responsive := true, has_hard_reset := true, reboot_count := 0 },
    is_responsive := some true }

/-- A dead target: probe fails, hard reset available, never rebooted. -/
def tmDead : TargetManager :=
  { target := { check_responsive := false, has_hard_reset := true, reboot_count := 0 },
    is_responsive := some true }

/-- A context on the live target, reboot disallowed, with an active job. -/
def ctxEx : Context :=
  { tm := tmLive, reboot_policy := { can_reboot := false },
    current_job := some "job1", events := [], status := none }

/-- A context on the dead target, reboot allowed, with an active job. -/
def ctxDead : Context :=
  { tm := tmDead, reboot_policy := { can_reboot := true },
    current_job := some "job1", events := [], status := none }

/-- A context on the dead target with reboot disallowed. -/
def ctxDeadNoReboot : Context :=
  { tm := tmDead, reboot_policy := { can_reboot := false },
    current_job := some "job1", events := [], status := none }

/-- A callback that returns normally. -/
def cbNoop : CallbackRun := fun c => (c, none)

/-- A callback that raises `KeyboardInterrupt`. -/
def cbRaiseKI : CallbackRun := fun c => (c, some .keyboardInterrupt)

/-- A callback that raises `TargetError("boom")`. -/
def cbRaiseTarget : CallbackRun := fun c => (c, some (.targetErr "boom"))

/-- A callback that raises a generic (unclassified) error. -/
def cbRaiseOther : CallbackRun := fun c => (c, some (.other "oops"))

/-- An instrument named with a dash, installed in `s7`. -/
def instFooBar : Instrument := ⟨0, 0, "foo-bar", true, false, []⟩

/-- A distinct instance of a distinct class whose name differs from
`instFooBar`'s only in the dash being an underscore. -/
def instFooUnd : Instrument := ⟨1, 1, "foo_bar", true, false, []⟩

/-- A registry state with `instFooBar` installed. -/
def s7 : ModuleState := ⟨[instFooBar], [], [], false⟩

/-- A `setup` attribute taking 3 positional arguments and no varargs. -/
def setupAttr3 : AttrSpec := ⟨"setup", true, 3, false, 0⟩

/-- An instrument whose `setup` method takes 3 positional arguments. -/
def instBadSetup : Instrument := ⟨5, 5, "bad-setup", true, false, [setupAttr3]⟩

/-- The empty registry state. -/
def s0 : ModuleState := ⟨[], [], [], false⟩

/-- A state with `instFooBar` installed, one managed callback kept in
`_callbacks` and one connection in the signal registry. -/
def s9 : ModuleState := ⟨[instFooBar], [(0, "setup")], [("setup", 0, 0)], false⟩

/-- Three registrations: callback 1 at priority 5, then callback 2 at
priority 10, then callback 3 again at priority 5. -/
def regsEx : List Registration := [⟨1, 5, 0⟩, ⟨2, 10, 1⟩, ⟨3, 5, 2⟩]

/-! ## Theorems for the claims -/

/-- C6: `check_failures` returns the current value of the process-wide
`failures_detected` flag and resets the flag to `False`; a managed
callback whose underlying callback raises a generic error records a
failure whatever the flag was before, after which `check_failures` returns
`true` exactly once, and a subsequent call — made on the flag the first
call left behind — returns `false`, and keeps returning `false` until the
flag is set again. -/
theorem check_failures_latch (s : Bool) :
    check_failures s = (s, false) ∧
    (check_failures (check_failures s).2).1 = false ∧
    (managedCall true cbRaiseOther ctxEx s).2.1 = true ∧
    check_failures (managedCall true cbRaiseOther ctxEx s).2.1 = (true, false) := by
  exact ⟨rfl, rfl, rfl, rfl⟩

/-- C10: `is_enabled` is total over instrument names: for any string naming
no currently installed instrument it returns `False` instead of raising,
even though the underlying `get_instrument` lookup raises the
not-installed `ValueError` for that very name. -/
theorem is_enabled_total (nm : String) (installed : List Instrument)
    (h : ∀ i ∈ installed, identifier i.name ≠ identifier nm) :
    is_enabled_lookup nm installed = false ∧
    get_instrument (.name nm) installed =
      .error (.valueError ("Instrument " ++ nm ++ " is not installed")) := by
  have hf : installed.find? (fun i => identifier i.name == identifier nm) = none := by
    rw [List.find?_eq_none]
    intro i hi
    simp [h i hi]
  have hg : get_instrument (.name nm) installed =
      .error (.valueError ("Instrument " ++ nm ++ " is not installed")) := by
    simp [get_instrument, hf]
  refine ⟨?_, hg⟩
  unfold is_enabled_lookup
  rw [hg]

/-- Witness for C10 at the name "ghost" and an empty registry. -/
theorem is_enabled_total_witness :
    is_enabled_lookup "ghost" [] = false ∧
    get_instrument (.name "ghost") [] =
      .error (.valueError ("Instrument " ++ "ghost" ++ " is not installed")) :=
  is_enabled_total "ghost" [] (by simp)

/-- C4: when the owning instrument's `is_enabled` flag is false, or the
target session's `is_responsive` flag is falsy, a managed-callback
invocation returns normally with the context and the failure flag
unchanged; the result does not depend on the underlying callback at all
(the right-hand side never mentions `cb`), i.e. the callback is not
invoked. -/
theorem managedCall_skips (is_en : Bool) (cb : CallbackRun)
    (ctx : Context) (failures : Bool)
    (h : is_en = false ∨ truthy ctx.tm.is_responsive = false) :
    managedCall is_en cb ctx failures = (ctx, failures, none) := by
  unfold managedCall
  rcases h with h | h
  · simp [h]
  · cases is_en <;> simp [h]

/-- Witness for C4: a disabled instrument, and separately a responsive
check on an unresponsive session. -/
theorem managedCall_skips_witness :
    managedCall false cbRaiseTarget ctxEx false = (ctxEx, false, none) :=
  managedCall_skips false cbRaiseTarget ctxEx false (Or.inl rfl)

/-- C3: when the underlying callback raises `KeyboardInterrupt`,
`TargetNotRespondingError` or `TimeoutError`, the managed callback
re-raises it unmodified: the propagated error is exactly `e`, the failure
flag is the one passed in, and the resulting context is exactly the one
the callback itself left (no event appended, no status set, no
classification applied). -/
theorem managedCall_reraises (cb : CallbackRun) (ctx c1 : Context)
    (failures : Bool) (e : PyErr)
    (hresp : truthy ctx.tm.is_responsive = true)
    (hcb : cb ctx = (c1, some e))
    (he : isReraised e = true) :
    managedCall true cb ctx failures = (c1, failures, some e) := by
  unfold managedCall
  simp [hresp, hcb, he]

/-- Witness for C3: a callback raising `KeyboardInterrupt` on a responsive
session. -/
theorem managedCall_reraises_witness :
    managedCall true cbRaiseKI ctxEx false = (ctxEx, false, some .keyboardInterrupt) :=
  managedCall_reraises cbRaiseKI ctxEx ctxEx false .keyboardInterrupt rfl rfl rfl

/-- C2: case analysis of `verify_target_responsive` on any call carrying an
actual context (the method's own signature): probe succeeds → no-op; probe
fails and reboot disallowed → fatal `TargetNotRespondingError` with
`is_responsive` left `False`; probe fails, reboot allowed, hard reset
supported → one hard reboot is performed, `is_responsive` is set back to
`True`, and a recoverable `ExecutionError` is still raised; probe fails,
reboot allowed, hard reset unsupported → fatal `TargetNotRespondingError`. -/
theorem verify_target_responsive_cases (tm : TargetManager) (c : Context) :
    (tm.target.check_responsive = true →
       verify_target_responsive tm (.ctx c) = (tm, none)) ∧
    (tm.target.check_responsive = false → c.reboot_policy.can_reboot = false →
       verify_target_responsive tm (.ctx c) =
         ({ tm with is_responsive := some false },
          some (.targetNotResponding
            "Target unresponsive and is not allowed to reboot."))) ∧
    (tm.target.check_responsive = false → c.reboot_policy.can_reboot = true →
       tm.target.has_hard_reset = true →
       (verify_target_responsive tm (.ctx c)).1.is_responsive = some true ∧
       (verify_target_responsive tm (.ctx c)).1.target.reboot_count =
         tm.target.reboot_count + 1 ∧
       (verify_target_responsive tm (.ctx c)).2 =
         some (.execution "Target became unresponsive but was recovered.")) ∧
    (tm.target.check_responsive = false → c.reboot_policy.can_reboot = true →
       tm.target.has_hard_reset = false →
       verify_target_responsive tm (.ctx c) =
         ({ tm with is_responsive := some false },
          some (.targetNotResponding
            "Target unresponsive and hard reset not supported; bailing."))) := by
  refine ⟨?_, ?_, ?_, ?_⟩ <;>
    intros <;>
    simp_all [verify_target_responsive, getCanReboot, TargetManager.rebootHard]

/-- Witness for C2: the dead target with reboot disallowed raises the fatal
not-responding error and leaves `is_responsive` false. -/
theorem verify_target_responsive_cases_witness :
    verify_target_responsive tmDead (.ctx ctxDeadNoReboot) =
      ({ tmDead with is_responsive := some false },
       some (.targetNotResponding
         "Target unresponsive and is not allowed to reboot.")) :=
  (verify_target_responsive_cases tmDead ctxDeadNoReboot).2.1 rfl rfl

/-- C1: evaluation of the managed callback at a failing input.  The
underlying callback raises `TargetError("boom")` while the instrument is
enabled, the session responsive, reboot allowed, and the target's probe
would fail: the failure flag is set and the message is appended to the
event log, but instead of the claimed responsiveness re-verification the
call propagates `AttributeError` — `ManagedCallback.__call__` passes
`context.reboot_policy.can_reboot` (a bool) where
`verify_target_responsive(self, context)` expects a context and
immediately dereferences `context.reboot_policy` — and the target manager
is left untouched: no probe is consulted, no reboot performed,
`is_responsive` never updated. -/
theorem managedCall_targetError_attributeError :
    managedCall true cbRaiseTarget ctxDead false =
      ({ ctxDead with events := ["boom"] }, true,
       some (.attributeError "bool object has no attribute reboot_policy")) ∧
    (managedCall true cbRaiseTarget ctxDead false).1.tm = tmDead ∧
    tmDead.target.check_responsive = false ∧
    ctxDead.reboot_policy.can_reboot = true ∧
    tmDead.target.has_hard_reset = true := by
  exact ⟨rfl, rfl, rfl, rfl, rfl⟩

/-! Ordering lemmas for the signal dispatcher (C5). -/

theorem connectReg_perm (r : Registration) (l : List Registration) :
    (connectReg r l).Perm (r :: l) := by
  induction l with
  | nil => simp [connectReg]
  | cons x xs ih =>
    unfold connectReg
    by_cases h : x.pri < r.pri
    · simp [h]
    · rw [if_neg h]
      exact (ih.cons x).trans (List.Perm.swap r x xs)

theorem pri_le_of_dispatchBefore (a b : Registration)
    (h : dispatchBefore a b) : b.pri ≤ a.pri := by
  rcases h with h | ⟨h, _⟩
  · exact le_of_lt h
  · exact le_of_eq h.symm

theorem connectReg_pairwise (r : Registration) (l : List Registration)
    (hl : l.Pairwise dispatchBefore) (hseq : ∀ x ∈ l, x.seq < r.seq) :
    (connectReg r l).Pairwise dispatchBefore := by
  induction l with
  | nil => simp [connectReg, dispatchBefore]
  | cons x xs ih =>
    rw [List.pairwise_cons] at hl
    obtain ⟨hx, hxs⟩ := hl
    unfold connectReg
    by_cases h : x.pri < r.pri
    · rw [if_pos h, List.pairwise_cons]
      refine ⟨?_, List.pairwise_cons.mpr ⟨hx, hxs⟩⟩
      intro y hy
      rcases List.mem_cons.mp hy with hy | hy
      · subst hy; exact Or.inl h
      · exact Or.inl (lt_of_le_of_lt (pri_le_of_dispatchBefore x y (hx y hy)) h)
    · rw [if_neg h, List.pairwise_cons]
      constructor
      · intro y hy
        rw [(connectReg_perm r xs).mem_iff] at hy
        rcases List.mem_cons.mp hy with hy | hy
        · subst hy
          rcases lt_or_eq_of_le (not_lt.mp h) with hp | hp
          · exact Or.inl hp
          · exact Or.inr ⟨hp.symm, hseq x (List.mem_cons_self x xs)⟩
        · exact hx y hy
      · exact ih hxs (fun y hy => hseq y (List.mem_cons_of_mem x hy))

theorem sendOrder_loop (regs : List Registration) :
    ∀ acc : List Registration, acc.Pairwise dispatchBefore →
      regs.Pairwise (fun a b => a.seq < b.seq) →
      (∀ x ∈ acc, ∀ r ∈ regs, x.seq < r.seq) →
      (regs.foldl (fun a r => connectReg r a) acc).Pairwise dispatchBefore ∧
      (regs.foldl (fun a r => connectReg r a) acc).Perm (acc ++ regs) := by
  induction regs with
  | nil =>
    intro acc hacc _ _
    constructor
    · exact hacc
    · simp
  | cons r rest ih =>
    intro acc hacc hregs hcross
    rw [List.pairwise_cons] at hregs
    obtain ⟨hr, hrest⟩ := hregs
    have hacc1 : (connectReg r acc).Pairwise dispatchBefore :=
      connectReg_pairwise r acc hacc
        (fun x hx => hcross x hx r (List.mem_cons_self r rest))
    have hcross1 : ∀ x ∈ connectReg r acc, ∀ q ∈ rest, x.seq < q.seq := by
      intro x hx q hq
      rw [(connectReg_perm r acc).mem_iff] at hx
      rcases List.mem_cons.mp hx with hx | hx
      · subst hx; exact hr q hq
      · exact hcross x hx q (List.mem_cons_of_mem r hq)
    obtain ⟨h1, h2⟩ := ih (connectReg r acc) hacc1 hrest hcross1
    rw [List.foldl_cons]
    refine ⟨h1, h2.trans ?_⟩
    have p1 : (connectReg r acc ++ rest).Perm (r :: (acc ++ rest)) :=
      (connectReg_perm r acc).append_right rest
    have p2 : (r :: (acc ++ rest)).Perm (acc ++ r :: rest) :=
      List.perm_middle.symm
    exact p1.trans p2

/-- C5: for registrations made in order of strictly increasing sequence
number (the registration order), the dispatcher's visiting order
`sendOrder` invokes exactly the registered callbacks (it is a permutation
of the registrations) and visits them pairwise in `dispatchBefore` order:
strictly descending numeric priority, with equal priorities in
registration order. -/
theorem sendOrder_priority_stable (regs : List Registration)
    (hseq : regs.Pairwise (fun a b => a.seq < b.seq)) :
    (sendOrder regs).Perm regs ∧
    (sendOrder regs).Pairwise dispatchBefore := by
  obtain ⟨h1, h2⟩ := sendOrder_loop regs [] List.Pairwise.nil hseq (by simp)
  exact ⟨by simpa using h2, h1⟩

/-- Witness for C5 at `regsEx`. -/
theorem sendOrder_priority_stable_witness :
    (sendOrder regsEx).Perm regsEx ∧
    (sendOrder regsEx).Pairwise dispatchBefore :=
  sendOrder_priority_stable regsEx (by decide)

/-! Helper lemmas about `installLoop`, `checkAttr` and `listRemove`. -/

theorem installLoop_installed (inst : Instrument) :
    ∀ (l : List AttrSpec) (s : ModuleState),
      (installLoop inst l s).1.installed = s.installed := by
  intro l
  induction l with
  | nil => intro s; rfl
  | cons a rest ih =>
    intro s
    unfold installLoop
    cases hc : checkAttr a with
    | some e => rfl
    | none => exact ih _

theorem checkAttr_eq_none (a : AttrSpec) :
    checkAttr a = none ↔ attrOk a = true := by
  unfold checkAttr attrOk
  rcases a with ⟨nm, c, n, v, p⟩
  cases c <;> cases v <;> (simp; try omega)

theorem installLoop_eq_none_iff (inst : Instrument) :
    ∀ (l : List AttrSpec) (s : ModuleState),
      (installLoop inst l s).2 = none ↔ ∀ a ∈ l, attrOk a = true := by
  intro l
  induction l with
  | nil => intro s; simp [installLoop]
  | cons a rest ih =>
    intro s
    unfold installLoop
    cases hc : checkAttr a with
    | some e =>
      simp only [List.mem_cons]
      constructor
      · intro h; exact absurd h (by simp)
      · intro h
        have := (checkAttr_eq_none a).mpr (h a (Or.inl rfl))
        rw [this] at hc
        exact absurd hc (by simp)
    | none =>
      have ha : attrOk a = true := (checkAttr_eq_none a).mp hc
      simp only [List.mem_cons]
      rw [ih]
      constructor
      · intro h b hb
        rcases hb with hb | hb
        · subst hb; exact ha
        · exact h b hb
      · intro h b hb
        exact h b (Or.inr hb)

theorem installLoop_first_err (inst : Instrument) :
    ∀ (l : List AttrSpec) (s : ModuleState) (a : AttrSpec),
      l.find? (fun x => !attrOk x) = some a →
      (installLoop inst l s).2 = checkAttr a := by
  intro l
  induction l with
  | nil => intro s a h; simp at h
  | cons b rest ih =>
    intro s a h
    rw [List.find?_cons] at h
    by_cases hb : (!attrOk b) = true
    · simp only [hb] at h
      have hba : b = a := Option.some.inj h
      subst hba
      unfold installLoop
      cases hc : checkAttr b with
      | some e => rfl
      | none =>
        have := (checkAttr_eq_none b).mp hc
        simp [this] at hb
    · have hb2 : (!attrOk b) = false := by
        cases hab : (!attrOk b)
        · rfl
        · exact absurd hab hb
      simp only [hb2] at h
      have hok : attrOk b = true := by
        cases hab : attrOk b
        · simp [hab] at hb2
        · rfl
      unfold installLoop
      rw [(checkAttr_eq_none b).mpr hok]
      exact ih _ a h

theorem listRemove_spec :
    ∀ (l l2 : List Instrument) (i : Instrument),
      listRemove l i = .ok l2 →
      l2.length + 1 = l.length ∧ ∀ x ∈ l2, x ∈ l := by
  intro l
  induction l with
  | nil => intro l2 i h; simp [listRemove] at h
  | cons x xs ih =>
    intro l2 i h
    unfold listRemove at h
    by_cases hx : (x.instId == i.instId) = true
    · rw [if_pos hx] at h
      have hl : xs = l2 := Except.ok.inj h
      subst hl
      exact ⟨by simp, fun y hy => List.mem_cons_of_mem x hy⟩
    · rw [if_neg hx] at h
      cases hys : listRemove xs i with
      | ok ys =>
        rw [hys] at h
        have hl : x :: ys = l2 := Except.ok.inj h
        subst hl
        obtain ⟨hlen, hmem⟩ := ih ys i hys
        constructor
        · simp [← hlen]
        · intro y hy
          rcases List.mem_cons.mp hy with hy | hy
          · simp [hy]
          · exact List.mem_cons_of_mem x (hmem y hy)
      | error e => rw [hys] at h; exact absurd h (by simp)

theorem attrOk_iff (a : AttrSpec) :
    attrOk a = true ↔
      (a.isCallable = true ∧ (a.nargs = 2 ∨ (a.nargs < 2 ∧ a.varargs = true))) := by
  unfold attrOk
  rcases a with ⟨nm, c, n, v, p⟩
  cases c <;> cases v <;> (simp; try omega)

theorem install_not_dup_eq (inst : Instrument) (s : ModuleState)
    (hne : ¬ is_installed_inst inst s.installed = true) :
    (install inst s).2 = (installLoop inst (mappedAttrs inst) s).2 ∧
    ((installLoop inst (mappedAttrs inst) s).2 = none →
      (install inst s).1.installed = s.installed ++ [inst]) := by
  unfold install
  rw [if_neg hne]
  have hins := installLoop_installed inst (mappedAttrs inst) s
  revert hins
  generalize installLoop inst (mappedAttrs inst) s = r
  intro hins
  obtain ⟨s1, o⟩ := r
  cases o with
  | some e =>
    refine ⟨rfl, fun h => ?_⟩
    exact Option.noConfusion (show (some e : Option PyErr) = none from h)
  | none =>
    refine ⟨rfl, fun _ => ?_⟩
    show s1.installed ++ [inst] = s.installed ++ [inst]
    rw [show s1.installed = s.installed from hins]

/-- C7 counterexample: `instFooBar` (name "foo-bar") is installed, and
`instFooUnd` (name "foo_bar") is a different instance of a different class
whose identifier-normalized name coincides with the installed one; yet
`install` succeeds, because the duplicate check for an instance argument
compares raw names only. -/
theorem install_identifier_name_not_checked :
    identifier instFooBar.name = identifier instFooUnd.name ∧
    instFooBar.name ≠ instFooUnd.name ∧
    instFooBar.instId ≠ instFooUnd.instId ∧
    instFooBar.clsId ≠ instFooUnd.clsId ∧
    instFooBar ∈ s7.installed ∧
    (install instFooUnd s7).2 = none := by
  decide

/-- C7 (amended): `install` fails with the duplicate-installation
`ValueError` when the very instance, or an installed instrument with the
same raw `name`, is already installed; since `name` is declared on the
instrument's class, an installed instrument of the same class (which
therefore shares the `name`) also triggers the failure.  On success the
instrument is appended to the registry and no previously installed
instrument shared its identity or raw name, so the
at-most-one-installed-instrument-per-name invariant is preserved.
Identifier normalization plays no part in this check (see the
counterexample). -/
theorem install_duplicate_spec (inst : Instrument) (s : ModuleState) :
    (is_installed_inst inst s.installed = true →
       (install inst s).2 = some (.valueError
         ("Instrument " ++ inst.name ++ " is already installed."))) ∧
    ((∃ j ∈ s.installed, j.instId = inst.instId ∨ j.name = inst.name) →
       is_installed_inst inst s.installed = true) ∧
    ((∃ j ∈ s.installed, j.clsId = inst.clsId ∧ j.name = inst.name) →
       is_installed_inst inst s.installed = true) ∧
    ((install inst s).2 = none →
       (install inst s).1.installed = s.installed ++ [inst] ∧
       ∀ j ∈ s.installed, j.instId ≠ inst.instId ∧ j.name ≠ inst.name) ∧
    ((s.installed.map (fun i => i.name)).Nodup → (install inst s).2 = none →
       ((install inst s).1.installed.map (fun i => i.name)).Nodup) := by
  have key : (∃ j ∈ s.installed, j.instId = inst.instId ∨ j.name = inst.name) →
      is_installed_inst inst s.installed = true := by
    rintro ⟨j, hj, hor⟩
    unfold is_installed_inst
    rw [Bool.or_eq_true]
    rcases hor with h | h
    · exact Or.inl (List.any_eq_true.mpr ⟨j, hj, by simp [h]⟩)
    · right
      have hm : inst.name ∈ s.installed.map (fun i => i.name) :=
        List.mem_map.mpr ⟨j, hj, h⟩
      simpa using hm
  have hfalse : is_installed_inst inst s.installed = false →
      ∀ j ∈ s.installed, j.instId ≠ inst.instId ∧ j.name ≠ inst.name := by
    intro h j hj
    constructor
    · intro he
      have hk := key ⟨j, hj, Or.inl he⟩
      rw [hk] at h
      exact absurd h (by simp)
    · intro he
      have hk := key ⟨j, hj, Or.inr he⟩
      rw [hk] at h
      exact absurd h (by simp)
  have hsucc : (install inst s).2 = none →
      (install inst s).1.installed = s.installed ++ [inst] ∧
      is_installed_inst inst s.installed = false := by
    intro hn
    by_cases hdup : is_installed_inst inst s.installed = true
    · unfold install at hn
      rw [if_pos hdup] at hn
      exact absurd hn (by simp)
    · have hd : is_installed_inst inst s.installed = false := by
        cases hval : is_installed_inst inst s.installed
        · rfl
        · exact absurd hval hdup
      obtain ⟨hsnd, hfst⟩ := install_not_dup_eq inst s hdup
      have hln : (installLoop inst (mappedAttrs inst) s).2 = none := by
        rw [← hsnd]
        exact hn
      exact ⟨hfst hln, hd⟩
  refine ⟨?_, key, ?_, ?_, ?_⟩
  · intro h
    unfold install
    rw [if_pos h]
  · rintro ⟨j, hj, _, hn⟩
    exact key ⟨j, hj, Or.inr hn⟩
  · intro hn
    exact ⟨(hsucc hn).1, hfalse (hsucc hn).2⟩
  · intro hnd hn
    have happ := (hsucc hn).1
    have hfresh := hfalse (hsucc hn).2
    rw [happ, List.map_append, List.nodup_append]
    refine ⟨hnd, List.nodup_singleton _, ?_⟩
    intro a ha hb
    obtain ⟨j, hj, hje⟩ := List.mem_map.mp ha
    have hab : a = inst.name := by simpa using hb
    exact (hfresh j hj).2 (hje.trans hab)

/-- Witness for C7's amended theorem: re-installing `instFooBar` into `s7`
fails with the duplicate error, while installing the fresh `instFooUnd`
appends it to the registry. -/
theorem install_duplicate_spec_witness :
    (install instFooBar s7).2 = some (PyErr.valueError
      "Instrument foo-bar is already installed.") ∧
    (install instFooUnd s7).1.installed = s7.installed ++ [instFooUnd] := by
  constructor
  · exact (install_duplicate_spec instFooBar s7).1 (by decide)
  · exact ((install_duplicate_spec instFooUnd s7).2.2.2.1 (by decide)).1

/-- C8: once past the duplicate check, `install` succeeds exactly when
every attribute whose name appears in the method-to-signal map is callable
and takes exactly two positional arguments (the self binding plus one
context parameter), or fewer than two with a variable-length trailing
parameter; and when the first offending mapped attribute is callable with
a wrong arity, `install` raises the `ValueError` naming that attribute and
the observed number of arguments. -/
theorem install_arity_spec (inst : Instrument) (s : ModuleState)
    (hdup : is_installed_inst inst s.installed = false) :
    ((install inst s).2 = none ↔
       ∀ a ∈ mappedAttrs inst, a.isCallable = true ∧
         (a.nargs = 2 ∨ (a.nargs < 2 ∧ a.varargs = true))) ∧
    (∀ a, (mappedAttrs inst).find? (fun x => !attrOk x) = some a →
       a.isCallable = true →
       (install inst s).2 = some (.valueError (a.attrName ++
         " must take exactly 2 positional arguments; " ++
         toString a.nargs ++ " given."))) := by
  have hne : ¬ is_installed_inst inst s.installed = true := by simp [hdup]
  constructor
  · have h1 := installLoop_eq_none_iff inst (mappedAttrs inst) s
    have h2 : (install inst s).2 = none ↔
        (installLoop inst (mappedAttrs inst) s).2 = none := by
      rw [(install_not_dup_eq inst s hne).1]
    rw [h2, h1]
    constructor
    · intro h a ha
      exact (attrOk_iff a).mp (h a ha)
    · intro h a ha
      exact (attrOk_iff a).mpr (h a ha)
  · intro a hfind hc
    have herr := installLoop_first_err inst (mappedAttrs inst) s a hfind
    have hbad : attrOk a = false := by
      have hp := List.find?_some hfind
      cases hab : attrOk a
      · rfl
      · rw [hab] at hp
        exact absurd hp (by simp)
    have hnot : ¬ (a.nargs = 2 ∨ (a.nargs < 2 ∧ a.varargs = true)) := by
      intro hcontra
      have hok := (attrOk_iff a).mpr ⟨hc, hcontra⟩
      rw [hok] at hbad
      exact absurd hbad (by simp)
    have hcond : (a.nargs > 2 || (a.nargs < 2 && !a.varargs)) = true := by
      rcases Nat.lt_trichotomy a.nargs 2 with h | h | h
      · cases hv : a.varargs
        · simp [h, hv]
        · exact absurd (Or.inr ⟨h, hv⟩) hnot
      · exact absurd (Or.inl h) hnot
      · simp [h]
    have hck : checkAttr a = some (.valueError (a.attrName ++
        " must take exactly 2 positional arguments; " ++
        toString a.nargs ++ " given.")) := by
      simp [checkAttr, hc, hcond]
    rw [hck] at herr
    rw [(install_not_dup_eq inst s hne).1]
    exact herr

/-- Witness for C8: installing `instBadSetup` (its `setup` takes 3
positional arguments) into the empty registry fails with the arity error
naming `setup` and the arity 3. -/
theorem install_arity_spec_witness :
    (install instBadSetup s0).2 = some (PyErr.valueError
      "setup must take exactly 2 positional arguments; 3 given.") := by
  exact (install_arity_spec instBadSetup s0 (by decide)).2 setupAttr3 (by decide) rfl

theorem removeInstalled_frame (i : Instrument) (s : ModuleState) :
    (removeInstalled i s).1.callbacks = s.callbacks ∧
    (removeInstalled i s).1.registry = s.registry ∧
    (removeInstalled i s).1.failures_detected = s.failures_detected := by
  unfold removeInstalled
  generalize listRemove s.installed i = rem
  cases rem with
  | error e => exact ⟨rfl, rfl, rfl⟩
  | ok l => exact ⟨rfl, rfl, rfl⟩

theorem removeInstalled_success (i : Instrument) (s : ModuleState)
    (h : (removeInstalled i s).2 = none) :
    (removeInstalled i s).1.installed.length + 1 = s.installed.length ∧
    ∀ x ∈ (removeInstalled i s).1.installed, x ∈ s.installed := by
  unfold removeInstalled at h ⊢
  revert h
  generalize hrem : listRemove s.installed i = rem
  cases rem with
  | error e =>
    intro h
    exact Option.noConfusion (show (some e : Option PyErr) = none from h)
  | ok l =>
    intro _
    obtain ⟨hlen, hmem⟩ := listRemove_spec s.installed l i hrem
    exact ⟨hlen, hmem⟩

/-- C9: `uninstall` changes only the `installed` list: the managed
callbacks stay in the module-level strong-reference list `_callbacks` and
stay connected in the signal registry, whatever the argument and outcome;
a name matching no installed instrument fails with the not-installed
`ValueError` and leaves the whole state unchanged; a successful call
removes exactly one entry of `installed`, keeping every other installed
instrument. -/
theorem uninstall_spec (r : InstRef) (s : ModuleState) :
    ((uninstall r s).1.callbacks = s.callbacks ∧
     (uninstall r s).1.registry = s.registry ∧
     (uninstall r s).1.failures_detected = s.failures_detected) ∧
    (∀ n, r = .name n → (∀ i ∈ s.installed, identifier i.name ≠ identifier n) →
       uninstall r s = (s, some (.valueError
         ("Instrument " ++ n ++ " is not installed")))) ∧
    ((uninstall r s).2 = none →
       (uninstall r s).1.installed.length + 1 = s.installed.length ∧
       ∀ x ∈ (uninstall r s).1.installed, x ∈ s.installed) := by
  refine ⟨?_, ?_, ?_⟩
  · unfold uninstall
    generalize get_instrument r s.installed = g
    cases g with
    | error e => exact ⟨rfl, rfl, rfl⟩
    | ok i => exact removeInstalled_frame i s
  · intro n hrn hno
    subst hrn
    have hf : s.installed.find? (fun i => identifier i.name == identifier n) = none := by
      rw [List.find?_eq_none]
      intro i hi
      simp [hno i hi]
    have hg : get_instrument (.name n) s.installed =
        .error (.valueError ("Instrument " ++ n ++ " is not installed")) := by
      simp [get_instrument, hf]
    unfold uninstall
    rw [hg]
  · unfold uninstall
    generalize get_instrument r s.installed = g
    cases g with
    | error e =>
      intro hnone
      exact Option.noConfusion (show (some e : Option PyErr) = none from hnone)
    | ok i => exact fun hnone => removeInstalled_success i s hnone

/-- Witness for C9: uninstalling the unknown name "ghost" from `s9` fails
with the not-installed error and changes nothing, while uninstalling the
installed `instFooBar` removes exactly it and leaves `_callbacks` (and the
registry) intact. -/
theorem uninstall_spec_witness :
    uninstall (InstRef.name "ghost") s9 =
      (s9, some (PyErr.valueError "Instrument ghost is not installed")) ∧
    (uninstall (InstRef.inst instFooBar) s9).1.callbacks = s9.callbacks ∧
    (uninstall (InstRef.inst instFooBar) s9).1.installed.length + 1 =
      s9.installed.length := by
  refine ⟨?_, ?_, ?_⟩
  · exact (uninstall_spec (.name "ghost") s9).2.1 "ghost" rfl (by decide)
  · exact (uninstall_spec (.inst instFooBar) s9).1.1
  · exact ((uninstall_spec (.inst instFooBar) s9).2.2 (by decide)).1

end WA
